import Mathlib

/-!
Shallow embedding of the Udacity trivia API backend
(`02_trivia_api/starter/backend/flaskr/__init__.py`), restricted to the
parts relevant to its route handlers: pagination of question lists,
case-insensitive search via SQL `ILIKE`, question creation/deletion, and
the quiz draw with rejection sampling.

The relational store is modelled as an in-memory list of records; the
ORM's `format()` serialization is the identity on the record fields; the
randomness consumed by `random.randint(0, len(questions) - 1)` is
modelled as an ambient list of natural numbers, each reduced modulo the
candidate-list length (every in-range index is reachable this way, and
every such stream corresponds to a possible run of the Python code).
-/

/-- A `Question` record: `{id, question, answer, category, difficulty}`,
exactly the fields serialized by `Question.format()`. -/
structure Question where
  id : Nat
  question : String
  answer : String
  category : Nat
  difficulty : Nat
deriving DecidableEq, Repr, Inhabited

/-- A `Category` record with its `id` and `type` (the display name). -/
structure Category where
  id : Nat
  type : String
deriving DecidableEq, Repr, Inhabited

/-- `QUESTIONS_PER_PAGE = 10` from the source module (the handlers inline
the literal `10`). -/
def QUESTIONS_PER_PAGE : Nat := 10

/-- Clamping of one Python slice endpoint against a list of length `n`:
a negative index counts from the end (clamped below at 0), a nonnegative
index is clamped above at `n`. -/
def pyIndex (n : Nat) (i : Int) : Nat :=
  if i < 0 then ((n : Int) + i).toNat else min n i.toNat

/-- Python list slicing `l[start:stop]`. -/
def pySlice (l : List α) (start stop : Int) : List α :=
  (l.take (pyIndex l.length stop)).drop (pyIndex l.length start)

/-- The pagination performed by `get_questions` and
`get_questions_by_category`: `start = (page - 1) * 10`, `end = start + 10`,
slice `formatted_questions[start:end]`. -/
def paginate (l : List Question) (page : Int) : List Question :=
  pySlice l ((page - 1) * 10) ((page - 1) * 10 + 10)

/-- Outcome of `GET /questions`. -/
inductive QuestionsOutcome
  | notFound
  | ok (questions : List Question) (total : Nat) (categories : List Category)
deriving DecidableEq, Repr

/-- Handler for `GET /questions?page=N`.  The categories dict keyed by id
is modelled as the category list itself (ids are unique per the data
model, so the dict and the list are empty together and carry the same
pairs). -/
def get_questions (storeQ : List Question) (storeC : List Category)
    (page : Int) : QuestionsOutcome :=
  let current_questions := paginate storeQ page
  if current_questions.length = 0 then .notFound
  else if storeC.length = 0 then .notFound
  else .ok current_questions storeQ.length storeC

/-- Outcome of `DELETE /questions/{id}`. -/
inductive DeleteOutcome
  | notFound
  | serverError
  | ok (deleted : Nat)
deriving DecidableEq, Repr

/-- Handler for `DELETE /questions/{id}`.  `Question.query.get` returning
`None` triggers `abort(404)` *inside* the `try` block; the raised
`NotFound` exception is swallowed by the bare `except`, which runs
`abort(500)` — so a missing id produces a 500 response, never the 404.
`storeDeleteFails` models `question.delete()` raising. -/
def delete_question (store : List Question) (question_id : Nat)
    (storeDeleteFails : Bool) : DeleteOutcome :=
  match store.find? (fun q => q.id = question_id) with
  | none => .serverError
  | some _ => if storeDeleteFails then .serverError else .ok question_id

/-- A JSON value as it arrives in a request body field; `jnull` stands
both for an explicit `null` and for a missing key (`dict.get` returns
`None` in both cases). -/
inductive JVal
  | jstr (s : String)
  | jint (n : Int)
  | jnull
deriving DecidableEq, Repr

/-- Python's `v == ''`: true exactly for the empty string (comparing an
int or `None` with `''` is `False`). -/
def JVal.isEmptyString : JVal → Bool
  | .jstr s => s = ""
  | _ => false

/-- Request body of `POST /questions`. -/
structure NewQuestionBody where
  question : JVal
  answer : JVal
  category : JVal
  difficulty : JVal
deriving DecidableEq, Repr

/-- Outcome of `POST /questions`. -/
inductive CreateOutcome
  | badRequest
  | unprocessable
  | created (id : Nat)
deriving DecidableEq, Repr

/-- Handler for `POST /questions`: aborts 400 iff some field `== ''`;
then attempts the insert, whose failure (`storeRejects`) is caught and
mapped to 422; on success returns 201 with the store-assigned `newId`. -/
def add_new_question (body : NewQuestionBody) (storeRejects : Bool)
    (newId : Nat) : CreateOutcome :=
  if body.question.isEmptyString || body.answer.isEmptyString
      || body.category.isEmptyString || body.difficulty.isEmptyString then
    .badRequest
  else if storeRejects then .unprocessable
  else .created newId

/-- SQL `LIKE`/`ILIKE` pattern matching over character lists (the store's
matcher, external to the Flask module): `%` matches any sequence, `_`
matches any single character, any other pattern character matches
case-insensitively. -/
def likeMatch : List Char → List Char → Bool
  | [], ts => ts.isEmpty
  | c :: ps, ts =>
    if c = '%' then ts.tails.any fun t2 => likeMatch ps t2
    else
      match ts with
      | [] => false
      | t :: ts2 =>
        (if c = '_' then true else c.toLower == t.toLower) && likeMatch ps ts2

/-- The pattern `'%{}%'.format(search_term)` passed to `ilike`. -/
def searchPattern (term : String) : List Char :=
  '%' :: term.toList ++ ['%']

/-- Outcome of `POST /questions/search`. -/
inductive SearchOutcome
  | badRequest
  | notFound
  | ok (questions : List Question)
deriving DecidableEq, Repr

/-- Handler for `POST /questions/search`: 400 on an empty `searchTerm`,
otherwise filter by `Question.question.ilike('%term%')`; 404 when the
result set is empty. -/
def search_for_question (store : List Question) (search_term : String) :
    SearchOutcome :=
  if search_term = "" then .badRequest
  else
    let search_results :=
      store.filter fun q => likeMatch (searchPattern search_term) q.question.toList
    if search_results.length = 0 then .notFound
    else .ok search_results

/-- Spec-side matcher, following the spec's words only: the text contains
the term as a case-insensitive substring.  Used to compare the source's
`ILIKE`-based filter against the specified contract. -/
def containsCISpec (term text : String) : Prop :=
  (term.toList.map Char.toLower) <:+: (text.toList.map Char.toLower)

instance (term text : String) : Decidable (containsCISpec term text) :=
  List.decidableInfix _ _

/-- Outcome of `GET /categories/{id}/questions`. -/
inductive CatQuestionsOutcome
  | notFound
  | serverError
  | ok (questions : List Question) (total : Nat) (current : String)
deriving DecidableEq, Repr

/-- Handler for `GET /categories/{id}/questions?page=N`:
`one_or_none` on the category (raising — hence 500 — on duplicate ids),
404 when absent; then the page slice of the category's questions is
returned with `total_questions = len(Question.query.all())` and a 200
status unconditionally. -/
def get_questions_by_category (storeQ : List Question)
    (storeC : List Category) (category_id : Nat) (page : Int) :
    CatQuestionsOutcome :=
  match storeC.filter (fun c => c.id = category_id) with
  | [] => .notFound
  | [c] =>
    let questions := storeQ.filter fun q => q.category = category_id
    .ok (paginate questions page) storeQ.length c.type
  | _ => .serverError

/-- Request body of `POST /quizzes`: `quiz_category` is a JSON object
whose `'id'` key may itself be absent (inner `Option`), and
`previous_questions` is a list of question ids; either key may be missing
(outer `Option`). -/
structure QuizBody where
  quiz_category : Option (Option Nat)
  previous_questions : Option (List Nat)
deriving DecidableEq, Repr

/-- Outcome of `POST /quizzes`.  `crash` is the uncaught
`random.randint(0, -1)` `ValueError` on an empty candidate list;
`outOfDraws` means the modelled finite stream of random numbers was
exhausted with the rejection loop still running. -/
inductive QuizOutcome
  | badRequest
  | crash
  | exhausted
  | question (q : Question)
  | outOfDraws
deriving DecidableEq, Repr

/-- The candidate set of the quiz draw: all questions when the sentinel
category id 0 is sent, otherwise the questions of the requested category
(`category.get('id')` being `None` matches nothing, as a SQL `NULL`
filter would). -/
def candidateSet (allQ : List Question) (catId : Option Nat) :
    List Question :=
  if catId = some 0 then allQ
  else allQ.filter fun q => some q.category = catId

/-- One`random.randint(0, len(qs) - 1)` indexing step (for nonempty `qs`
the index `d % qs.length` ranges over exactly the valid positions). -/
def drawQuestion (qs : List Question) (d : Nat) : Question :=
  qs.getD (d % qs.length) default

/-- The `while next_question.id in prev_questions` rejection loop: on
each iteration a fresh question is drawn, then the handler returns the
bare-success (exhaustion) response if `len(prev_questions)` equals the
candidate count; leaving the loop returns the current question. -/
def quizLoop (qs : List Question) (prev : List Nat) (total : Nat) :
    Question → List Nat → QuizOutcome
  | next, draws =>
    if next.id ∈ prev then
      match draws with
      | [] => .outOfDraws
      | d :: rest =>
        let next2 := drawQuestion qs d
        if prev.length = total then .exhausted
        else quizLoop qs prev total next2 rest
    else .question next

/-- Handler for `POST /quizzes`: 400 on a missing/empty body or missing
`quiz_category`/`previous_questions` keys; builds the candidate set,
draws a first question (crashing on an empty candidate list), then runs
the rejection loop. -/
def get_quiz_question (allQ : List Question) (body : Option QuizBody)
    (draws : List Nat) : QuizOutcome :=
  match body with
  | none => .badRequest
  | some b =>
    match b.quiz_category, b.previous_questions with
    | none, _ => .badRequest
    | some _, none => .badRequest
    | some cat, some prev =>
      let questions := candidateSet allQ cat
      let total := questions.length
      if questions.length = 0 then .crash
      else
        match draws with
        | [] => .outOfDraws
        | d :: rest => quizLoop questions prev total (drawQuestion questions d) rest

/-! Sample records used in witnesses and counterexamples. -/

/-- Sample question with id 1, in category 3. -/
def qA : Question := ⟨1, "What is the longest river in the world?", "Nile River", 3, 4⟩

/-- Sample question with id 2, in category 2. -/
def qB : Question := ⟨2, "La Giaconda is better known as what?", "Mona Lisa", 2, 3⟩

/-- Sample question whose text is the two-letter string `ab`. -/
def qWild : Question := ⟨9, "ab", "x", 1, 1⟩

/-- Sample question mentioning a boxer, in category 4. -/
def qBoxer : Question := ⟨3, "Whose original name is Cassius Clay?", "Muhammad Ali", 4, 1⟩

/-- Sample category with id 2. -/
def catArt : Category := ⟨2, "Art"⟩

/-! ## Helper lemmas -/

lemma take_min_drop (l : List α) (s k : Nat) :
    (l.take (min l.length (s + k))).drop (min l.length s) = (l.drop s).take k := by
  rcases Nat.le_total l.length s with h | h
  · rw [Nat.min_eq_left h, Nat.min_eq_left (Nat.le_trans h (Nat.le_add_right s k))]
    rw [List.take_length, List.drop_length, List.drop_eq_nil_of_le h]
    simp
  · rw [Nat.min_eq_right h, List.drop_take]
    rw [List.take_eq_take]
    simp only [List.length_drop]
    omega

lemma paginate_eq (l : List Question) (p : Int) (hp : 1 ≤ p) :
    paginate l p = (l.drop ((p - 1) * 10).toNat).take 10 := by
  have h0 : (0 : Int) ≤ (p - 1) * 10 := by omega
  unfold paginate pySlice pyIndex
  rw [if_neg (by omega), if_neg (by omega)]
  have h1 : ((p - 1) * 10 + 10).toNat = ((p - 1) * 10).toNat + 10 := by omega
  rw [h1]
  exact take_min_drop l _ 10

lemma drawQuestion_mem (qs : List Question) (h : qs ≠ []) (d : Nat) :
    drawQuestion qs d ∈ qs := by
  unfold drawQuestion
  have hl : 0 < qs.length := List.length_pos.mpr h
  have hm : d % qs.length < qs.length := Nat.mod_lt _ hl
  rw [List.getD_eq_getElem?_getD, List.getElem?_eq_getElem hm]
  exact List.getElem_mem hm

lemma likeMatch_percent (ps ts : List Char) :
    likeMatch ('%' :: ps) ts = true ↔
      ∃ ts2, ts2 <:+ ts ∧ likeMatch ps ts2 = true := by
  show (if ('%' : Char) = '%' then ts.tails.any fun t2 => likeMatch ps t2
      else _) = true ↔ _
  rw [if_pos rfl]
  simp [List.any_eq_true, List.mem_tails, and_comm]

lemma likeMatch_plain_nil (c : Char) (hc : c ≠ '%') (ps : List Char) :
    likeMatch (c :: ps) [] = false := by
  show (if c = '%' then ([] : List Char).tails.any fun t2 => likeMatch ps t2
      else false) = false
  rw [if_neg hc]

lemma likeMatch_plain_cons (c : Char) (hc1 : c ≠ '%') (hc2 : c ≠ '_')
    (ps : List Char) (t : Char) (ts : List Char) :
    likeMatch (c :: ps) (t :: ts) =
      ((c.toLower == t.toLower) && likeMatch ps ts) := by
  show (if c = '%' then (t :: ts).tails.any fun t2 => likeMatch ps t2
      else (if c = '_' then true else c.toLower == t.toLower)
        && likeMatch ps ts) = _
  rw [if_neg hc1, if_neg hc2]

lemma likeMatch_append_percent (p : List Char)
    (hwf : ∀ c ∈ p, c ≠ '%' ∧ c ≠ '_') (ts : List Char) :
    likeMatch (p ++ ['%']) ts = true ↔
      ∃ a, a <+: ts ∧ a.map Char.toLower = p.map Char.toLower := by
  induction p generalizing ts with
  | nil =>
    simp only [List.nil_append, List.map_nil, List.map_eq_nil_iff]
    rw [likeMatch_percent]
    constructor
    · intro _
      exact ⟨[], List.nil_prefix, rfl⟩
    · intro _
      exact ⟨[], List.nil_suffix, rfl⟩
  | cons c p ih =>
    have hc := hwf c (List.mem_cons_self _ _)
    cases ts with
    | nil =>
      rw [List.cons_append, likeMatch_plain_nil c hc.1]
      simp only [Bool.false_eq_true, false_iff, not_exists, not_and]
      rintro a ha hmap
      rw [List.prefix_nil] at ha
      subst ha
      simp at hmap
    | cons t ts =>
      rw [List.cons_append, likeMatch_plain_cons c hc.1 hc.2,
        Bool.and_eq_true, beq_iff_eq,
        ih (fun x hx => hwf x (List.mem_cons_of_mem _ hx))]
      constructor
      · rintro ⟨hct, a, ha, hmap⟩
        exact ⟨t :: a, List.cons_prefix_cons.mpr ⟨rfl, ha⟩,
          by simp [hmap, hct]⟩
      · rintro ⟨a, ha, hmap⟩
        cases a with
        | nil => simp at hmap
        | cons x a =>
          obtain ⟨rfl, ha2⟩ := List.cons_prefix_cons.mp ha
          simp only [List.map_cons, List.cons.injEq] at hmap
          exact ⟨hmap.1.symm, a, ha2, hmap.2⟩

lemma likeMatch_pattern_iff_infix (p ts : List Char)
    (hwf : ∀ c ∈ p, c ≠ '%' ∧ c ≠ '_') :
    likeMatch ('%' :: (p ++ ['%'])) ts = true ↔
      (p.map Char.toLower) <:+: (ts.map Char.toLower) := by
  rw [likeMatch_percent]
  constructor
  · rintro ⟨ts2, hsuf, hm⟩
    rw [likeMatch_append_percent p hwf] at hm
    obtain ⟨a, hpre, hmap⟩ := hm
    rw [← hmap]
    exact List.IsInfix.map _ (List.infix_iff_prefix_suffix.mpr ⟨ts2, hpre, hsuf⟩)
  · intro hinf
    obtain ⟨x, y, hxy⟩ := hinf
    rw [List.append_assoc] at hxy
    obtain ⟨u, vw, huvw, hu, hvw⟩ := List.map_eq_append_iff.mp hxy.symm
    obtain ⟨v, w, hvw2, hv, hw⟩ := List.map_eq_append_iff.mp hvw
    refine ⟨v ++ w, ⟨u, by rw [huvw, hvw2]⟩, ?_⟩
    rw [likeMatch_append_percent p hwf]
    exact ⟨v, ⟨w, rfl⟩, hv⟩

lemma likeMatch_eq_containsCI (term text : String)
    (hwf : ∀ c ∈ term.toList, c ≠ '%' ∧ c ≠ '_') :
    likeMatch (searchPattern term) text.toList =
      decide (containsCISpec term text) := by
  have h : likeMatch (searchPattern term) text.toList = true ↔
      (term.toList.map Char.toLower) <:+: (text.toList.map Char.toLower) :=
    likeMatch_pattern_iff_infix term.toList text.toList hwf
  by_cases hc : containsCISpec term text
  · rw [h.mpr hc, decide_eq_true hc]
  · rw [decide_eq_false hc, Bool.eq_false_iff]
    exact fun ht => hc (h.mp ht)

/-! ## Claims -/

/-- C3: for every page `p ≥ 1` and every question list, the pagination of
`GET /questions` returns the sub-sequence at offset `(p-1)*10`, and the
slice length is exactly `min(10, max(0, n-(p-1)*10))`. -/
theorem paginate_contract (l : List Question) (p : Int) (hp : 1 ≤ p) :
    paginate l p = (l.drop ((p - 1) * 10).toNat).take 10 ∧
    ((paginate l p).length : Int) =
      min 10 (max 0 ((l.length : Int) - (p - 1) * 10)) := by
  refine ⟨paginate_eq l p hp, ?_⟩
  rw [paginate_eq l p hp, List.length_take, List.length_drop]
  omega

/-- Witness for C3 at page 2 of a two-question list. -/
theorem paginate_contract_witness :
    paginate [qA, qB] 2 = (([qA, qB].drop (((2 : Int) - 1) * 10).toNat).take 10) ∧
    ((paginate [qA, qB] 2).length : Int) =
      min 10 (max 0 (([qA, qB].length : Int) - ((2 : Int) - 1) * 10)) :=
  paginate_contract [qA, qB] 2 (by decide)

/-- C4 (code bug): when no question with the requested id exists, the
handler responds 500, not the documented 404 — `abort(404)` is raised
inside the `try` block and swallowed by the bare `except`, which runs
`abort(500)`.  Evaluated here at the failing input (an empty store and
id 1); the success branch still echoes the deleted id. -/
theorem delete_missing_id_gives_500 :
    delete_question [] 1 false = DeleteOutcome.serverError ∧
    DeleteOutcome.serverError ≠ DeleteOutcome.notFound ∧
    delete_question [qA] 1 false = DeleteOutcome.ok 1 := by decide

/-- C5 counterexample: a body whose `question` field is missing (`None`)
passes the `== ''` validation, so the handler does not answer 400 — with
an accepting store it answers 201. -/
theorem add_missing_field_not_bad_request :
    add_new_question ⟨.jnull, .jstr "a", .jint 1, .jint 2⟩ false 7 =
      CreateOutcome.created 7 ∧
    CreateOutcome.created 7 ≠ CreateOutcome.badRequest := by decide

/-- C5 amended: `POST /questions` answers 400 exactly when one of the
four fields compares equal to the empty string (a missing field does
not); validation is independent of the store, a rejected write maps to
422, and otherwise the handler answers 201 with the created id. -/
theorem add_new_question_validation (b : NewQuestionBody)
    (storeRejects : Bool) (newId : Nat) :
    ((b.question.isEmptyString || b.answer.isEmptyString
        || b.category.isEmptyString || b.difficulty.isEmptyString) = true →
      add_new_question b storeRejects newId = .badRequest) ∧
    ((b.question.isEmptyString || b.answer.isEmptyString
        || b.category.isEmptyString || b.difficulty.isEmptyString) = false →
      add_new_question b storeRejects newId =
        if storeRejects then .unprocessable else .created newId) := by
  unfold add_new_question
  constructor <;> intro h <;> simp [h]

/-- Witness for C5's amended theorem: an empty `question` field is
rejected with 400 even when the store would have accepted the write. -/
theorem add_new_question_validation_witness :
    add_new_question ⟨.jstr "", .jstr "a", .jint 1, .jint 2⟩ false 7 =
      CreateOutcome.badRequest :=
  (add_new_question_validation ⟨.jstr "", .jstr "a", .jint 1, .jint 2⟩
    false 7).1 (by decide)

/-- C7: `POST /questions/search` answers 400 on an empty term — before
the store is consulted, hence for every store — and 404 whenever a
non-empty term matches no stored question. -/
theorem search_error_mapping (store : List Question) (term : String) :
    (term = "" → search_for_question store term = .badRequest) ∧
    (term ≠ "" →
      store.filter (fun q => likeMatch (searchPattern term) q.question.toList) = [] →
      search_for_question store term = .notFound) := by
  unfold search_for_question
  constructor
  · intro h
    rw [if_pos h]
  · intro h hf
    rw [if_neg h]
    simp only [hf, List.length_nil]
    rfl

/-- Witness for C7: a term matching nothing in the store yields 404. -/
theorem search_error_mapping_witness :
    search_for_question [qA] "zzz" = SearchOutcome.notFound :=
  (search_error_mapping [qA] "zzz").2 (by decide) (by decide)

/-- C9: `GET /questions` answers 404 exactly when the requested page
slice is empty or no categories exist; otherwise it answers 200 with the
page's questions, the total question count, and the category map. -/
theorem get_questions_contract (storeQ : List Question)
    (storeC : List Category) (page : Int) :
    (get_questions storeQ storeC page = .notFound ↔
      paginate storeQ page = [] ∨ storeC = []) ∧
    (paginate storeQ page ≠ [] → storeC ≠ [] →
      get_questions storeQ storeC page =
        .ok (paginate storeQ page) storeQ.length storeC) := by
  have e : get_questions storeQ storeC page =
      if (paginate storeQ page).length = 0 then .notFound
      else if storeC.length = 0 then .notFound
      else .ok (paginate storeQ page) storeQ.length storeC := rfl
  rw [e]
  by_cases h1 : (paginate storeQ page).length = 0
  · rw [if_pos h1]
    exact ⟨by simp [List.length_eq_zero.mp h1],
      fun hq _ => absurd (List.length_eq_zero.mp h1) hq⟩
  · rw [if_neg h1]
    by_cases h2 : storeC.length = 0
    · rw [if_pos h2]
      exact ⟨by simp [List.length_eq_zero.mp h2],
        fun _ hc => absurd (List.length_eq_zero.mp h2) hc⟩
    · rw [if_neg h2]
      refine ⟨⟨fun h => QuestionsOutcome.noConfusion h, fun h => ?_⟩,
        fun _ _ => rfl⟩
      rcases h with h | h
      · exact absurd (by simp [h]) h1
      · exact absurd (by simp [h]) h2

/-- Witness for C9: a one-question, one-category store at page 1. -/
theorem get_questions_contract_witness :
    get_questions [qA] [catArt] 1 = QuestionsOutcome.ok [qA] 1 [catArt] :=
  ((get_questions_contract [qA] [catArt] 1).2 (by decide) (by decide)).trans
    (by decide)

/-- C10: for an existing category id (a unique row, as ids are), the
handler answers 200 with the page slice of that category's questions —
an empty slice stays a 200 with an empty list — and `total_questions`
is the count of all stored questions, not of the category's. -/
theorem get_questions_by_category_contract (storeQ : List Question)
    (storeC : List Category) (cid : Nat) (page : Int) (c : Category)
    (hc : storeC.filter (fun x => x.id = cid) = [c]) :
    get_questions_by_category storeQ storeC cid page =
      .ok (paginate (storeQ.filter fun q => q.category = cid) page)
        storeQ.length c.type := by
  unfold get_questions_by_category
  rw [hc]

/-- Witness for C10: requesting page 2 of category 2 in a two-question
store gives 200 with an empty page and `total_questions = 2`, although
category 2 holds a single question. -/
theorem get_questions_by_category_contract_witness :
    get_questions_by_category [qA, qB] [catArt] 2 2 =
      CatQuestionsOutcome.ok [] 2 "Art" :=
  (get_questions_by_category_contract [qA, qB] [catArt] 2 2 catArt
    (by decide)).trans (by decide)

/-- C8: with an empty candidate set (sentinel id 0 over an empty store,
or a category holding no questions) the quiz handler applies
`random.randint` to an empty range and fails with an uncaught error
instead of signalling "no question available"; dually, a success
response (with or without a question) is only reachable when the
candidate set is non-empty. -/
theorem quiz_empty_candidates (allQ : List Question) (cat : Option Nat)
    (prev draws : List Nat) :
    (candidateSet allQ cat = [] →
      get_quiz_question allQ (some ⟨some cat, some prev⟩) draws = .crash) ∧
    (∀ r, get_quiz_question allQ (some ⟨some cat, some prev⟩) draws = r →
      (r = .exhausted ∨ ∃ q, r = .question q) →
      candidateSet allQ cat ≠ []) := by
  have hcrash : candidateSet allQ cat = [] →
      get_quiz_question allQ (some ⟨some cat, some prev⟩) draws = .crash := by
    intro h
    show (if (candidateSet allQ cat).length = 0 then QuizOutcome.crash
        else _) = QuizOutcome.crash
    rw [if_pos (by simp [h])]
  refine ⟨hcrash, fun r hr hsucc hempty => ?_⟩
  rw [hcrash hempty] at hr
  rcases hsucc with h | ⟨q, h⟩ <;> rw [h] at hr <;> exact QuizOutcome.noConfusion hr

/-- Witness for C8: an empty store with the all-categories sentinel makes
the handler fail. -/
theorem quiz_empty_candidates_witness :
    get_quiz_question [] (some ⟨some (some 0), some []⟩) [0] =
      QuizOutcome.crash :=
  (quiz_empty_candidates [] (some 0) [] [0]).1 (by decide)

/-- C1 counterexample: candidate set `{qA}` (one question, id 1) and
previously-asked list `[2]` have equal sizes, yet the handler returns a
question instead of the claimed exhaustion signal — equality of sizes
does not mean the candidates are exhausted when the previously-asked
ids are not ids of candidates. -/
theorem quiz_size_equal_not_exhausted :
    ([2] : List Nat).length = (candidateSet [qA] (some 0)).length ∧
    get_quiz_question [qA] (some ⟨some (some 0), some [2]⟩) [0, 0, 0] =
      QuizOutcome.question qA ∧
    QuizOutcome.question qA ≠ QuizOutcome.exhausted := by decide

/-- C1 amended: whenever the previously-asked list contains the id of
every candidate, its length equals the candidate count, and the
candidate set is non-empty, the handler stops drawing and signals
exhaustion (a success response without a question) within two draws —
for every stream of random draws, so the rejection loop cannot run
forever: the exhaustion condition is checked on every redraw. -/
theorem quiz_exhaustion (allQ : List Question) (cat : Option Nat)
    (prev draws : List Nat)
    (hne : candidateSet allQ cat ≠ [])
    (hcov : ∀ q ∈ candidateSet allQ cat, q.id ∈ prev)
    (hlen : prev.length = (candidateSet allQ cat).length)
    (hdr : 2 ≤ draws.length) :
    get_quiz_question allQ (some ⟨some cat, some prev⟩) draws =
      QuizOutcome.exhausted := by
  obtain ⟨d1, d2, rest, rfl⟩ : ∃ d1 d2 rest, draws = d1 :: d2 :: rest := by
    cases draws with
    | nil => simp at hdr
    | cons d1 t =>
      cases t with
      | nil => simp at hdr
      | cons d2 rest => exact ⟨d1, d2, rest, rfl⟩
  show (if (candidateSet allQ cat).length = 0 then QuizOutcome.crash
      else quizLoop (candidateSet allQ cat) prev (candidateSet allQ cat).length
        (drawQuestion (candidateSet allQ cat) d1) (d2 :: rest)) =
    QuizOutcome.exhausted
  rw [if_neg (by simpa using hne)]
  have hid : (drawQuestion (candidateSet allQ cat) d1).id ∈ prev :=
    hcov _ (drawQuestion_mem _ hne d1)
  show (if (drawQuestion (candidateSet allQ cat) d1).id ∈ prev then
      if prev.length = (candidateSet allQ cat).length then QuizOutcome.exhausted
      else quizLoop (candidateSet allQ cat) prev (candidateSet allQ cat).length
        (drawQuestion (candidateSet allQ cat) d2) rest
    else QuizOutcome.question (drawQuestion (candidateSet allQ cat) d1)) =
    QuizOutcome.exhausted
  rw [if_pos hid, if_pos hlen]

/-- Witness for C1's amended theorem: both sample questions already
asked, any two draws at hand. -/
theorem quiz_exhaustion_witness :
    get_quiz_question [qA, qB] (some ⟨some (some 0), some [1, 2]⟩) [0, 1] =
      QuizOutcome.exhausted :=
  quiz_exhaustion [qA, qB] (some 0) [1, 2] [0, 1] (by decide) (by decide)
    (by decide) (by decide)

lemma quizLoop_question_sound (qs : List Question) (prev : List Nat)
    (total : Nat) :
    ∀ (draws : List Nat) (next q : Question), next ∈ qs →
      quizLoop qs prev total next draws = .question q →
      q ∈ qs ∧ q.id ∉ prev := by
  intro draws
  induction draws with
  | nil =>
    intro next q hmem h
    by_cases hid : next.id ∈ prev
    · rw [show quizLoop qs prev total next [] =
          (if next.id ∈ prev then QuizOutcome.outOfDraws
            else QuizOutcome.question next) from rfl, if_pos hid] at h
      exact QuizOutcome.noConfusion h
    · rw [show quizLoop qs prev total next [] =
          (if next.id ∈ prev then QuizOutcome.outOfDraws
            else QuizOutcome.question next) from rfl, if_neg hid] at h
      obtain rfl : next = q := by
        cases h
        rfl
      exact ⟨hmem, hid⟩
  | cons d rest ih =>
    intro next q hmem h
    rw [show quizLoop qs prev total next (d :: rest) =
        (if next.id ∈ prev then
          if prev.length = total then QuizOutcome.exhausted
          else quizLoop qs prev total (drawQuestion qs d) rest
        else QuizOutcome.question next) from rfl] at h
    by_cases hid : next.id ∈ prev
    · rw [if_pos hid] at h
      by_cases hl : prev.length = total
      · rw [if_pos hl] at h
        exact QuizOutcome.noConfusion h
      · rw [if_neg hl] at h
        exact ih _ q (drawQuestion_mem qs (List.ne_nil_of_mem hmem) d) h
    · rw [if_neg hid] at h
      obtain rfl : next = q := by
        cases h
        rfl
      exact ⟨hmem, hid⟩

lemma get_quiz_unfold (allQ : List Question) (cat : Option Nat)
    (prev draws : List Nat) :
    get_quiz_question allQ (some ⟨some cat, some prev⟩) draws =
      if (candidateSet allQ cat).length = 0 then QuizOutcome.crash
      else
        match draws with
        | [] => QuizOutcome.outOfDraws
        | d :: rest =>
          quizLoop (candidateSet allQ cat) prev (candidateSet allQ cat).length
            (drawQuestion (candidateSet allQ cat) d) rest := by
  cases draws <;> rfl

/-- C2: whenever `POST /quizzes` responds with a question, it is exactly
one question, a member of the candidate set, whose id is not among the
previously-asked ids; and with a singleton candidate set `{A}` and no
previous questions, every draw stream yields `A`. -/
theorem quiz_question_contract (allQ : List Question) (cat : Option Nat)
    (prev draws : List Nat) :
    (∀ q, get_quiz_question allQ (some ⟨some cat, some prev⟩) draws =
        .question q →
      q ∈ candidateSet allQ cat ∧ q.id ∉ prev) ∧
    (∀ A, candidateSet allQ cat = [A] → prev = [] → draws ≠ [] →
      get_quiz_question allQ (some ⟨some cat, some prev⟩) draws =
        .question A) := by
  constructor
  · intro q h
    rw [get_quiz_unfold] at h
    by_cases hemp : (candidateSet allQ cat).length = 0
    · rw [if_pos hemp] at h
      exact QuizOutcome.noConfusion h
    · rw [if_neg hemp] at h
      have hne : candidateSet allQ cat ≠ [] := fun h0 => hemp (by simp [h0])
      cases draws with
      | nil => exact QuizOutcome.noConfusion h
      | cons d rest =>
        exact quizLoop_question_sound _ _ _ rest _ q
          (drawQuestion_mem _ hne d) h
  · rintro A hA rfl hd
    cases draws with
    | nil => exact absurd rfl hd
    | cons d rest =>
      rw [get_quiz_unfold, hA, if_neg (by simp)]
      show quizLoop [A] [] [A].length (drawQuestion [A] d) rest =
        QuizOutcome.question A
      have hdraw : drawQuestion [A] d = A := by
        unfold drawQuestion
        simp [Nat.mod_one]
      rw [hdraw]
      cases rest <;> simp [quizLoop]

/-- Witness for C2: a singleton candidate set (category 2) with no
previous questions returns its only question. -/
theorem quiz_question_contract_witness :
    get_quiz_question [qA, qB] (some ⟨some (some 2), some []⟩) [5] =
      QuizOutcome.question qB :=
  (quiz_question_contract [qA, qB] (some 2) [] [5]).2 qB (by decide) rfl
    (by decide)

/-- C6 counterexample: the search term `"_"` is a SQL wildcard, so the
handler's `ILIKE '%_%'` filter accepts the question text `"ab"` even
though `"ab"` does not contain `"_"` as a (case-insensitive) substring —
the result set is not the set the claim describes. -/
theorem search_wildcard_counterexample :
    search_for_question [qWild] "_" = SearchOutcome.ok [qWild] ∧
    ¬ containsCISpec "_" qWild.question := by decide

/-- C6 amended: for every non-empty search term containing no SQL
wildcard (`%` or `_`), the handler's success response is exactly the
set of stored questions whose text contains the term as a
case-insensitive substring; in particular a unique match comes back as
that single-element list. -/
theorem search_matches_ci_substring (store : List Question) (term : String)
    (hne : term ≠ "")
    (hwf : ∀ c ∈ term.toList, c ≠ '%' ∧ c ≠ '_') :
    (∀ qs, search_for_question store term = .ok qs →
      qs = store.filter fun q => decide (containsCISpec term q.question)) ∧
    (∀ q0,
      store.filter (fun q => decide (containsCISpec term q.question)) = [q0] →
      search_for_question store term = .ok [q0]) := by
  have hfe : (fun q : Question =>
        likeMatch (searchPattern term) q.question.toList) =
      (fun q : Question => decide (containsCISpec term q.question)) :=
    funext fun q => likeMatch_eq_containsCI term q.question hwf
  have e : search_for_question store term =
      if (store.filter (fun q =>
            decide (containsCISpec term q.question))).length = 0 then
        SearchOutcome.notFound
      else
        SearchOutcome.ok (store.filter fun q =>
          decide (containsCISpec term q.question)) := by
    show (if term = "" then SearchOutcome.badRequest
        else
          if (store.filter (fun q =>
                likeMatch (searchPattern term) q.question.toList)).length = 0
          then SearchOutcome.notFound
          else SearchOutcome.ok (store.filter fun q =>
            likeMatch (searchPattern term) q.question.toList)) = _
    rw [if_neg hne, hfe]
  rw [e]
  constructor
  · intro qs h
    by_cases hz : (store.filter (fun q =>
        decide (containsCISpec term q.question))).length = 0
    · rw [if_pos hz] at h
      exact SearchOutcome.noConfusion h
    · rw [if_neg hz] at h
      cases h
      rfl
  · intro q0 h0
    rw [h0, if_neg (by simp)]

/-- Witness for C6's amended theorem: the wildcard-free term `"CLAY"`
matches exactly the boxing question, case-insensitively. -/
theorem search_matches_ci_substring_witness :
    search_for_question [qA, qBoxer] "CLAY" = SearchOutcome.ok [qBoxer] :=
  (search_matches_ci_substring [qA, qBoxer] "CLAY" (by decide)
    (by decide)).2 qBoxer (by decide)
